import Mathlib

/-!
Verification of the Ishiko/Process child-process spawning logic
(`src/ChildProcessBuilder.cpp`) against its specification.

The platform-divergent `ChildProcessBuilder::start(Error&)` is embedded
shallowly: operating-system calls (fork, open, dup2, chdir, realpath,
exec, CreateProcessA, CloseHandle) are modelled by an oracle structure
supplying their results, and the code's behaviour is a pure function of
the builder configuration and that oracle, returning both the visible
result and the ordered trace of system calls the code issues.
-/

namespace IshikoProcess

/-- Modelled from the spec: `CommandLine` is an external collaborator,
"consumed as an already-parsed ordered argument list" — an executable
path plus the arguments in order.  Its own source is not part of this
repository. -/
structure CommandLine where
  executable : String
  arguments : List String
deriving DecidableEq, Repr

/-- `CommandLine::getExecutable(CommandLine::Mode::raw)`: the raw
(unescaped) executable token. -/
def CommandLine.getExecutableRaw (cl : CommandLine) : String :=
  cl.executable

/-- `CommandLine::getArguments(CommandLine::Mode::raw)`: the raw argument
tokens in order. -/
def CommandLine.getArgumentsRaw (cl : CommandLine) : List String :=
  cl.arguments

/-- Modelled from the spec: quoting used by
`CommandLine::toString(Mode::quote_if_needed)` — a token is surrounded by
double quotes when it needs them (contains a space). -/
def quoteIfNeeded (s : String) : String :=
  if s.data.contains ' ' then "\"" ++ s ++ "\"" else s

/-- Modelled from the spec: `CommandLine::toString(Mode::quote_if_needed)`
renders the command line as a single quoted/escaped string: executable
then each argument, space-separated. -/
def CommandLine.toStringQuoted (cl : CommandLine) : String :=
  (cl.arguments.map quoteIfNeeded).foldl (fun acc a => acc ++ " " ++ a)
    (quoteIfNeeded cl.executable)

/-- Modelled from the spec: `Environment` is an external collaborator,
"a key-value mapping that can be serialized into a platform environment
block". -/
structure Environment where
  vars : List (String × String)
deriving DecidableEq, Repr

/-- Modelled from the spec: `Environment::toEnvironmentArray` serializes
the mapping into "a null-terminated array of KEY=VALUE strings"
(POSIX `envp` form); `none` is the terminating null pointer. -/
def Environment.toEnvironmentArray (e : Environment) : List (Option String) :=
  e.vars.map (fun kv => some (kv.1 ++ "=" ++ kv.2)) ++ [none]

/-- Modelled from the spec: `Environment::toEnvironmentBlock` serializes
the mapping into "a native key=value block (null-separated,
doubly-null-terminated)" (the Windows environment block). -/
def Environment.toEnvironmentBlock (e : Environment) : List Char :=
  (e.vars.map (fun kv => (kv.1 ++ "=" ++ kv.2).toList ++ [Char.ofNat 0])).flatten
    ++ [Char.ofNat 0]

/-- `ProcessErrorCategory::Value` — the error kinds of the process error
category; `start` only ever uses `generic`. -/
inductive ProcessErrorCategoryValue where
  | generic
deriving DecidableEq, Repr

/-- `Ishiko::Error`: a lightweight failure descriptor, default-constructed
to "no error" (`condition = none`). -/
structure Error where
  condition : Option ProcessErrorCategoryValue := none
deriving DecidableEq, Repr

/-- `Fail(ProcessErrorCategory::Value::generic, error)`: populate the
error with the given condition. -/
def Fail (v : ProcessErrorCategoryValue) (_e : Error) : Error :=
  { condition := some v }

/-- POSIX `ChildProcess`: wraps one native process identifier (a pid);
`-1` is the "no process" sentinel. -/
structure ChildProcess where
  pid : Int
deriving DecidableEq, Repr

/-- `ChildProcessBuilder`'s state: the command line, the optional
explicit environment (`m_environment`), the standard-output redirection
path (`m_standardOutputFilePath`, empty string when unset), and the
optional working directory (`m_current_working_directory`). -/
structure ChildProcessBuilder where
  m_commandLine : CommandLine
  m_environment : Option Environment := none
  m_standardOutputFilePath : String := ""
  m_current_working_directory : Option String := none
deriving DecidableEq, Repr

/-- `ChildProcessBuilder::ChildProcessBuilder(const CommandLine&)`. -/
def ChildProcessBuilder.mk1 (cl : CommandLine) : ChildProcessBuilder :=
  { m_commandLine := cl }

/-- `ChildProcessBuilder::ChildProcessBuilder(const CommandLine&, const
Environment&)`. -/
def ChildProcessBuilder.mk2 (cl : CommandLine) (env : Environment) :
    ChildProcessBuilder :=
  { m_commandLine := cl, m_environment := some env }

/-- `ChildProcessBuilder::redirectStandardOutputToFile(path)`:
`m_standardOutputFilePath = path;` -/
def ChildProcessBuilder.redirectStandardOutputToFile
    (b : ChildProcessBuilder) (path : String) : ChildProcessBuilder :=
  { b with m_standardOutputFilePath := path }

/-- `ChildProcessBuilder::setCurrentWorkingDirectory(path)`:
`m_current_working_directory = path;` -/
def ChildProcessBuilder.setCurrentWorkingDirectory
    (b : ChildProcessBuilder) (path : String) : ChildProcessBuilder :=
  { b with m_current_working_directory := some path }

/-! ### POSIX path of `start(Error&)` (lines 57–118) -/

/-- `O_WRONLY` on Linux. -/
def O_WRONLY : Nat := 1
/-- `O_CREAT` on Linux (octal 0100). -/
def O_CREAT : Nat := 64
/-- `O_TRUNC` on Linux (octal 01000). -/
def O_TRUNC : Nat := 512
/-- `STDOUT_FILENO`. -/
def STDOUT_FILENO : Int := 1

/-- One system call issued by the forked child, with its arguments.
Pointer arrays (`argv`, `envp`) are lists of `Option String`, `none`
being a null pointer. -/
inductive SysCall where
  | openCall (path : String) (flags : Nat) (mode : Nat)
  | dup2 (oldfd : Int) (newfd : Int)
  | realpathCall (path : String)
  | chdirCall (path : String)
  | execve (path : String) (argv : List (Option String))
      (envp : List (Option String))
  | execv (path : String) (argv : List (Option String))
  | exitCall (status : Int)
deriving DecidableEq, Repr

/-- Oracle for the operating-system calls the POSIX branch of `start`
makes: the results the OS hands back. -/
structure PosixOS where
  /-- `boost::filesystem::exists(executable)` in the parent. -/
  executableExists : Bool
  /-- result of `fork()`: `-1` failure, `0` in the child, `> 0` in the
  parent. -/
  forkResult : Int
  /-- file descriptor returned by `open` for the redirection file
  (`-1` on failure). -/
  openResult : Int
  /-- canonical absolute path returned by `realpath` for the
  executable. -/
  realpathResult : String
  /-- return code of `chdir` (`0` success, `-1` failure). -/
  chdirResult : Int
  /-- whether the `execv`/`execve` call succeeds (replaces the process
  image) — when it succeeds it does not return. -/
  execSucceeds : Bool
deriving DecidableEq, Repr

/-- Lines 76–86: the argument vector built in the child: `argv[0]` is the
raw executable token, then each raw argument in order, then a null
pointer (array length `arguments.size() + 2`). -/
def buildArgv (cl : CommandLine) : List (Option String) :=
  some cl.getExecutableRaw :: (cl.getArgumentsRaw.map some ++ [none])

/-- How the forked child ends: either the process image was replaced by a
successful exec (carrying the path, argv and optional envp that call
received), or the child terminated via `exit` with a status. -/
inductive ChildOutcome where
  | replaced (path : String) (argv : List (Option String))
      (envp : Option (List (Option String)))
  | exited (status : Int)
deriving DecidableEq, Repr

/-- Lines 76–117: the behaviour of the forked child (`child == 0`
branch): build argv; if `m_standardOutputFilePath` is non-empty, `open`
it with `O_WRONLY | O_CREAT | O_TRUNC` mode `0400` and `dup2` the result
onto standard output (neither result is checked); `realpath` the
executable; if a working directory is set, `chdir` into it (return code
ignored); then `execve` with the serialized environment when one is
configured, `execv` otherwise; if the exec returns, `exit(-1)`.
Returns the ordered trace of system calls and the child's outcome. -/
def childRun (b : ChildProcessBuilder) (os : PosixOS) :
    List SysCall × ChildOutcome :=
  let argv := buildArgv b.m_commandLine
  let redirectTrace : List SysCall :=
    if b.m_standardOutputFilePath = "" then []
    else
      [SysCall.openCall b.m_standardOutputFilePath
         (O_WRONLY ||| O_CREAT ||| O_TRUNC) 256,
       SysCall.dup2 os.openResult STDOUT_FILENO]
  let executablePath := os.realpathResult
  let cwdTrace : List SysCall :=
    match b.m_current_working_directory with
    | some d => [SysCall.chdirCall d]
    | none => []
  let setupTrace :=
    redirectTrace
      ++ [SysCall.realpathCall b.m_commandLine.getExecutableRaw]
      ++ cwdTrace
  match b.m_environment with
  | some env =>
      let envp := env.toEnvironmentArray
      let t := setupTrace ++ [SysCall.execve executablePath argv envp]
      if os.execSucceeds then
        (t, ChildOutcome.replaced executablePath argv (some envp))
      else
        (t ++ [SysCall.exitCall (-1)], ChildOutcome.exited (-1))
  | none =>
      let t := setupTrace ++ [SysCall.execv executablePath argv]
      if os.execSucceeds then
        (t, ChildOutcome.replaced executablePath argv none)
      else
        (t ++ [SysCall.exitCall (-1)], ChildOutcome.exited (-1))

/-- Result of the POSIX `start(Error&)`: either the path taken by the
calling (parent) process — the `ChildProcess` returned plus the state of
the `Error&` out-parameter — or the branch executed inside the forked
child, which returns nothing to the caller and is described by its
system-call trace and outcome. -/
inductive StartResult where
  | parent (cp : ChildProcess) (error : Error)
  | childBranch (trace : List SysCall) (outcome : ChildOutcome)
deriving DecidableEq, Repr

/-- Lines 57–118: `ChildProcessBuilder::start(Error&)` on the POSIX path.
`error` is the incoming state of the `Error&` out-parameter. -/
def ChildProcessBuilder.start (b : ChildProcessBuilder) (os : PosixOS)
    (error : Error) : StartResult :=
  if !os.executableExists then
    StartResult.parent (ChildProcess.mk (-1))
      (Fail ProcessErrorCategoryValue.generic error)
  else
    let child := os.forkResult
    if child = -1 then
      StartResult.parent (ChildProcess.mk child)
        (Fail ProcessErrorCategoryValue.generic error)
    else if child > 0 then
      StartResult.parent (ChildProcess.mk child) error
    else
      let r := childRun b os
      StartResult.childBranch r.1 r.2

/-! ### Windows path of `start(Error&)` (lines 119–168) -/

/-- `INVALID_HANDLE_VALUE` (`(HANDLE)-1` on Windows); handles are
modelled as integers. -/
def INVALID_HANDLE_VALUE : Int := -1

/-- The `STARTUPINFOA` fields `start` sets: whether
`STARTF_USESTDHANDLES` is in `dwFlags` and the `hStdOutput` handle
(zero-initialized otherwise). -/
structure STARTUPINFOA where
  useStdHandles : Bool := false
  hStdOutput : Option Int := none
deriving DecidableEq, Repr

/-- One Windows API call issued by `start`, with the arguments the code
passes. The environment-block pointer is `none` for `NULL` (inherit) and
the working-directory pointer is `none` for `NULL`. -/
inductive WinCall where
  | createInheritableFile (path : String)
  | createProcess (cmd : String) (inheritHandles : Bool)
      (environment : Option (List Char)) (workingDirectory : Option String)
      (startupInfo : STARTUPINFOA)
  | closeHandle (h : Int)
deriving DecidableEq, Repr

/-- Oracle for the Windows API calls the Windows branch of `start`
makes. -/
structure WindowsOS where
  /-- handle returned by `createInheritableFile`
  (`CreateFileA`) for the redirection file. -/
  createFileResult : Int
  /-- whether `CreateProcessA` succeeds. -/
  createProcessSucceeds : Bool
  /-- `processInfo.hProcess` filled in by a successful
  `CreateProcessA`. -/
  hProcess : Int
  /-- `processInfo.hThread` filled in by a successful
  `CreateProcessA`. -/
  hThread : Int
deriving DecidableEq, Repr

/-- Result of the Windows `start(Error&)`: the ordered trace of API
calls, the handle wrapped in the returned `ChildProcess`, and the state
of the `Error&` out-parameter. -/
structure WinStartResult where
  trace : List WinCall
  handle : Int
  error : Error
deriving DecidableEq, Repr

/-- Lines 119–168: `ChildProcessBuilder::start(Error&)` on the Windows
path: if `m_standardOutputFilePath` is non-empty, create an inheritable
output file handle, set `inheritHandles`, `STARTF_USESTDHANDLES` and
`hStdOutput`; serialize the environment into a block if configured
(`NULL` otherwise); pass the working directory or `NULL`; call
`CreateProcessA` with the quoted command-line string; on failure
`Fail(generic, error)` with `handle` left `INVALID_HANDLE_VALUE`, on
success take `hProcess` and close the thread handle; in either case
close the parent's output-file handle when redirection was requested;
wrap `handle` in the returned `ChildProcess`. -/
def ChildProcessBuilder.startWindows (b : ChildProcessBuilder)
    (os : WindowsOS) (error : Error) : WinStartResult :=
  let redirecting := b.m_standardOutputFilePath ≠ ""
  let outputFile := os.createFileResult
  let inheritHandles := if redirecting then true else false
  let startupInfo : STARTUPINFOA :=
    if redirecting then
      { useStdHandles := true, hStdOutput := some outputFile }
    else {}
  let preTrace : List WinCall :=
    if redirecting then
      [WinCall.createInheritableFile b.m_standardOutputFilePath]
    else []
  let environment : Option (List Char) :=
    b.m_environment.map Environment.toEnvironmentBlock
  let workingDirectory : Option String := b.m_current_working_directory
  let cmd := b.m_commandLine.toStringQuoted
  let callTrace := preTrace ++
    [WinCall.createProcess cmd inheritHandles environment workingDirectory
       startupInfo]
  let afterCall : List WinCall × Int × Error :=
    if !os.createProcessSucceeds then
      (callTrace, INVALID_HANDLE_VALUE,
       Fail ProcessErrorCategoryValue.generic error)
    else
      (callTrace ++ [WinCall.closeHandle os.hThread], os.hProcess, error)
  let closeTrace : List WinCall :=
    if redirecting then [WinCall.closeHandle outputFile] else []
  { trace := afterCall.1 ++ closeTrace,
    handle := afterCall.2.1,
    error := afterCall.2.2 }

/-! ### Auxiliary observations on traces and outcomes -/

/-- The argv handed to the exec-family call of an outcome, when the
image was replaced. -/
def ChildOutcome.execArgv : ChildOutcome → Option (List (Option String))
  | ChildOutcome.replaced _ argv _ => some argv
  | ChildOutcome.exited _ => none

/-- Whether a system call is an exec-family call (`execv` or
`execve`). -/
def SysCall.isExec : SysCall → Bool
  | SysCall.execve _ _ _ => true
  | SysCall.execv _ _ => true
  | _ => false

/-- The path argument of an exec-family call, if the call is one. -/
def SysCall.execPath : SysCall → Option String
  | SysCall.execve p _ _ => some p
  | SysCall.execv p _ => some p
  | _ => none

/-- Where the child's standard-output stream points: still the stream it
inherited, or a file descriptor it was replaced with. -/
inductive StdoutTarget where
  | original
  | fd (n : Int)
deriving DecidableEq, Repr

/-- POSIX semantics of one system call's effect on the child's
standard-output stream: `dup2(oldfd, 1)` replaces it with `oldfd` when
`oldfd` is a valid descriptor (non-negative), and fails with `EBADF`
(leaving standard output untouched) otherwise; no other call in the
trace changes it. -/
def applyToStdout (s : StdoutTarget) : SysCall → StdoutTarget
  | SysCall.dup2 oldfd newfd =>
      if newfd = STDOUT_FILENO ∧ 0 ≤ oldfd then StdoutTarget.fd oldfd else s
  | _ => s

/-- The child's effective standard-output stream after the trace. -/
def effectiveStdout (t : List SysCall) : StdoutTarget :=
  t.foldl applyToStdout StdoutTarget.original

/-- The argv handed to an exec-family system call, if the call is
one. -/
def SysCall.argvOf : SysCall → Option (List (Option String))
  | SysCall.execve _ a _ => some a
  | SysCall.execv _ a => some a
  | _ => none

/-- Whether a system call is an `open`. -/
def SysCall.isOpen : SysCall → Bool
  | SysCall.openCall _ _ _ => true
  | _ => false

/-- Whether a system call is a `dup2`. -/
def SysCall.isDup2 : SysCall → Bool
  | SysCall.dup2 _ _ => true
  | _ => false

/-- Whether a Windows call is `createInheritableFile`. -/
def WinCall.isCreateFile : WinCall → Bool
  | WinCall.createInheritableFile _ => true
  | _ => false

/-- The single exec-family call the forked child issues: `execve` with
the serialized environment when `m_environment` holds one, `execv`
otherwise, in both cases on the `realpath`-resolved executable and the
built argv. -/
def execCallOf (b : ChildProcessBuilder) (os : PosixOS) : SysCall :=
  match b.m_environment with
  | some env =>
      SysCall.execve os.realpathResult (buildArgv b.m_commandLine)
        env.toEnvironmentArray
  | none => SysCall.execv os.realpathResult (buildArgv b.m_commandLine)

/-- The environment-block pointer a Windows call passes to
`CreateProcessA`, if the call is a `createProcess`. -/
def WinCall.envOf : WinCall → Option (Option (List Char))
  | WinCall.createProcess _ _ e _ _ => some e
  | _ => none

/-- The command-line string a Windows call passes to `CreateProcessA`,
if the call is a `createProcess`. -/
def WinCall.cmdOf : WinCall → Option String
  | WinCall.createProcess cmd _ _ _ _ => some cmd
  | _ => none

/-! ### Concrete sample configurations used by the witnesses -/

/-- A sample command line. -/
def cl0 : CommandLine := { executable := "/bin/echo", arguments := ["a", "b c"] }

/-- A sample environment. -/
def env0 : Environment := { vars := [("PATH", "/bin")] }

/-- A builder with no environment, no redirection, no working
directory. -/
def b0 : ChildProcessBuilder := { m_commandLine := cl0 }

/-- A builder with everything configured. -/
def bFull : ChildProcessBuilder :=
  { m_commandLine := cl0, m_environment := some env0,
    m_standardOutputFilePath := "/tmp/out.txt",
    m_current_working_directory := some "/tmp" }

/-- A default-constructed error ("no error"). -/
def e0 : Error := {}

/-- POSIX oracle: executable missing. -/
def osNoExe : PosixOS :=
  { executableExists := false, forkResult := 7, openResult := 3,
    realpathResult := "/bin/echo", chdirResult := 0, execSucceeds := true }

/-- POSIX oracle: fork fails. -/
def osForkFail : PosixOS :=
  { executableExists := true, forkResult := -1, openResult := 3,
    realpathResult := "/bin/echo", chdirResult := 0, execSucceeds := true }

/-- POSIX oracle: in the child, everything succeeds. -/
def osChild : PosixOS :=
  { executableExists := true, forkResult := 0, openResult := 3,
    realpathResult := "/usr/bin/echo", chdirResult := 0,
    execSucceeds := true }

/-- POSIX oracle: in the child, the open of the redirection file and
the exec both fail. -/
def osChildBad : PosixOS :=
  { executableExists := true, forkResult := 0, openResult := -1,
    realpathResult := "/usr/bin/echo", chdirResult := -1,
    execSucceeds := false }

/-- Windows oracle: `CreateProcessA` succeeds. -/
def wosOk : WindowsOS :=
  { createFileResult := 40, createProcessSucceeds := true,
    hProcess := 50, hThread := 60 }

/-- Windows oracle: `CreateProcessA` fails. -/
def wosFail : WindowsOS :=
  { createFileResult := 40, createProcessSucceeds := false,
    hProcess := 50, hThread := 60 }

/-! ### Normal-form lemmas -/

/-- Normal form of the child's system-call trace: optional
open-and-dup2 block, then `realpath`, then optional `chdir`, then the
exec call, then `exit(-1)` when the exec returned. -/
lemma childRun_fst_eq (b : ChildProcessBuilder) (os : PosixOS) :
    (childRun b os).1 =
      (if b.m_standardOutputFilePath = "" then []
       else
         [SysCall.openCall b.m_standardOutputFilePath
            (O_WRONLY ||| O_CREAT ||| O_TRUNC) 256,
          SysCall.dup2 os.openResult STDOUT_FILENO])
      ++ [SysCall.realpathCall b.m_commandLine.getExecutableRaw]
      ++ (match b.m_current_working_directory with
          | some d => [SysCall.chdirCall d]
          | none => [])
      ++ [execCallOf b os]
      ++ (if os.execSucceeds then [] else [SysCall.exitCall (-1)]) := by
  rcases b with ⟨cl, _ | env, path, _ | d⟩ <;>
    by_cases hp : path = "" <;> cases hs : os.execSucceeds <;>
      simp [childRun, execCallOf, hp, hs]

/-- Normal form of the child's outcome: the image is replaced (with the
resolved path, the built argv, and the serialized environment exactly
when one is configured) when the exec succeeds, and the child exits
with status `-1` otherwise. -/
lemma childRun_snd_eq (b : ChildProcessBuilder) (os : PosixOS) :
    (childRun b os).2 =
      if os.execSucceeds then
        ChildOutcome.replaced os.realpathResult (buildArgv b.m_commandLine)
          (b.m_environment.map Environment.toEnvironmentArray)
      else ChildOutcome.exited (-1) := by
  rcases b with ⟨cl, _ | env, path, _ | d⟩ <;>
    by_cases hp : path = "" <;> cases hs : os.execSucceeds <;>
      simp [childRun, hp, hs]

/-- When the executable exists and `fork` returned `0`, `start` is in
the child branch and runs `childRun`. -/
lemma start_child_branch (b : ChildProcessBuilder) (os : PosixOS)
    (error : Error) (h1 : os.executableExists = true)
    (h2 : os.forkResult = 0) :
    b.start os error =
      StartResult.childBranch (childRun b os).1 (childRun b os).2 := by
  simp [ChildProcessBuilder.start, h1, h2]

/-- Normal form of the Windows `start`, split on redirection and on the
success of `CreateProcessA`. -/
lemma startWindows_eq (b : ChildProcessBuilder) (os : WindowsOS)
    (error : Error) :
    b.startWindows os error =
      (if b.m_standardOutputFilePath = "" then
        (if os.createProcessSucceeds then
          { trace := [WinCall.createProcess b.m_commandLine.toStringQuoted
                        false (b.m_environment.map Environment.toEnvironmentBlock)
                        b.m_current_working_directory {},
                      WinCall.closeHandle os.hThread],
            handle := os.hProcess, error := error }
        else
          { trace := [WinCall.createProcess b.m_commandLine.toStringQuoted
                        false (b.m_environment.map Environment.toEnvironmentBlock)
                        b.m_current_working_directory {}],
            handle := INVALID_HANDLE_VALUE,
            error := Fail ProcessErrorCategoryValue.generic error })
      else
        (if os.createProcessSucceeds then
          { trace := [WinCall.createInheritableFile b.m_standardOutputFilePath,
                      WinCall.createProcess b.m_commandLine.toStringQuoted
                        true (b.m_environment.map Environment.toEnvironmentBlock)
                        b.m_current_working_directory
                        { useStdHandles := true,
                          hStdOutput := some os.createFileResult },
                      WinCall.closeHandle os.hThread,
                      WinCall.closeHandle os.createFileResult],
            handle := os.hProcess, error := error }
        else
          { trace := [WinCall.createInheritableFile b.m_standardOutputFilePath,
                      WinCall.createProcess b.m_commandLine.toStringQuoted
                        true (b.m_environment.map Environment.toEnvironmentBlock)
                        b.m_current_working_directory
                        { useStdHandles := true,
                          hStdOutput := some os.createFileResult },
                      WinCall.closeHandle os.createFileResult],
            handle := INVALID_HANDLE_VALUE,
            error := Fail ProcessErrorCategoryValue.generic error })) := by
  by_cases hp : b.m_standardOutputFilePath = "" <;>
    cases hs : os.createProcessSucceeds <;>
      simp [ChildProcessBuilder.startWindows, hp, hs]

/-- Any system call in the child's trace is one of: the redirection
`open`, the redirection `dup2`, the `realpath`, the `chdir` on the
configured directory, the exec call, or the final `exit(-1)`. -/
lemma mem_childRun_elim (b : ChildProcessBuilder) (os : PosixOS)
    (c : SysCall) (hc : c ∈ (childRun b os).1) :
    c = SysCall.openCall b.m_standardOutputFilePath
          (O_WRONLY ||| O_CREAT ||| O_TRUNC) 256 ∨
    c = SysCall.dup2 os.openResult STDOUT_FILENO ∨
    c = SysCall.realpathCall b.m_commandLine.getExecutableRaw ∨
    (∃ d, b.m_current_working_directory = some d ∧ c = SysCall.chdirCall d) ∨
    c = execCallOf b os ∨
    c = SysCall.exitCall (-1) := by
  rw [childRun_fst_eq] at hc
  simp only [List.mem_append] at hc
  rcases hc with ((((hc | hc) | hc) | hc) | hc)
  · split at hc
    · simp at hc
    · simp only [List.mem_cons, List.not_mem_nil, or_false] at hc
      tauto
  · simp only [List.mem_singleton] at hc; tauto
  · rcases hb : b.m_current_working_directory with _ | d <;> rw [hb] at hc
    · simp at hc
    · simp only [List.mem_singleton] at hc
      exact Or.inr (Or.inr (Or.inr (Or.inl ⟨d, rfl, hc⟩)))
  · simp only [List.mem_singleton] at hc; tauto
  · split at hc
    · simp at hc
    · simp only [List.mem_singleton] at hc; tauto

/-- The child's trace always contains its exec call. -/
lemma execCall_mem (b : ChildProcessBuilder) (os : PosixOS) :
    execCallOf b os ∈ (childRun b os).1 := by
  rw [childRun_fst_eq]; simp

/-- The exec call is an exec-family call. -/
lemma execCall_isExec (b : ChildProcessBuilder) (os : PosixOS) :
    (execCallOf b os).isExec = true := by
  unfold execCallOf
  rcases b.m_environment with _ | env <;> simp [SysCall.isExec]

/-- The child's effective standard output: redirected to the opened
descriptor exactly when a redirection path was recorded and the `open`
returned a valid descriptor; in every other case — no redirection
requested, or the unchecked `open` failed — the child runs with the
standard output it inherited. -/
lemma effectiveStdout_childRun (b : ChildProcessBuilder) (os : PosixOS) :
    effectiveStdout (childRun b os).1 =
      if b.m_standardOutputFilePath ≠ "" ∧ 0 ≤ os.openResult then
        StdoutTarget.fd os.openResult
      else StdoutTarget.original := by
  rcases b with ⟨cl, _ | env, path, _ | d⟩ <;>
    by_cases hp : path = "" <;> cases hs : os.execSucceeds <;>
      by_cases hod : (0 : Int) ≤ os.openResult <;>
        simp [childRun, effectiveStdout, applyToStdout, hp, hs, hod,
          STDOUT_FILENO]

/-! ### Claims -/

/-- C1: for every builder configuration, whenever the spawn fails (the
executable path does not exist on the POSIX path, fork fails, or the
native CreateProcess call fails on the Windows path), `start(Error&)`
populates the Error with the generic process-error kind and returns an
invalid ChildProcess handle (pid `-1` on POSIX, `INVALID_HANDLE_VALUE`
on Windows), never a valid running handle. -/
theorem spawn_failure_populates_error_and_invalid_handle
    (b : ChildProcessBuilder) (os : PosixOS) (wos : WindowsOS)
    (error : Error) :
    (os.executableExists = false →
      b.start os error =
        StartResult.parent (ChildProcess.mk (-1))
          { condition := some ProcessErrorCategoryValue.generic }) ∧
    (os.executableExists = true → os.forkResult = -1 →
      b.start os error =
        StartResult.parent (ChildProcess.mk (-1))
          { condition := some ProcessErrorCategoryValue.generic }) ∧
    (wos.createProcessSucceeds = false →
      (b.startWindows wos error).handle = INVALID_HANDLE_VALUE ∧
      (b.startWindows wos error).error =
        { condition := some ProcessErrorCategoryValue.generic }) := by
  refine ⟨fun h => ?_, fun h1 h2 => ?_, fun h => ?_⟩
  · simp [ChildProcessBuilder.start, h, Fail]
  · simp [ChildProcessBuilder.start, h1, h2, Fail]
  · rw [startWindows_eq]
    by_cases hp : b.m_standardOutputFilePath = "" <;> simp [hp, h, Fail]

/-- Witness for C1: on a concrete builder, the missing-executable case,
the fork-failure case and the CreateProcess-failure case each yield the
populated generic error and the invalid handle. -/
theorem spawn_failure_populates_error_and_invalid_handle_w :
    b0.start osNoExe e0 =
      StartResult.parent (ChildProcess.mk (-1))
        { condition := some ProcessErrorCategoryValue.generic } ∧
    b0.start osForkFail e0 =
      StartResult.parent (ChildProcess.mk (-1))
        { condition := some ProcessErrorCategoryValue.generic } ∧
    (b0.startWindows wosFail e0).handle = INVALID_HANDLE_VALUE ∧
    (b0.startWindows wosFail e0).error =
      { condition := some ProcessErrorCategoryValue.generic } :=
  ⟨(spawn_failure_populates_error_and_invalid_handle b0 osNoExe wosFail e0).1
      (by decide),
   (spawn_failure_populates_error_and_invalid_handle b0 osForkFail wosFail
      e0).2.1 (by decide) (by decide),
   (spawn_failure_populates_error_and_invalid_handle b0 osChild wosFail
      e0).2.2 (by decide)⟩

/-- C2: on the POSIX path, the forked child constructs the argument
vector for exec with element 0 the raw executable path, followed by the
raw command-line arguments in order, followed by exactly one null
terminator, so the array has length number-of-arguments + 2; the trace
contains exactly one exec-family call and it receives that vector. -/
theorem child_argv_structure (b : ChildProcessBuilder) (os : PosixOS)
    (error : Error) (h1 : os.executableExists = true)
    (h2 : os.forkResult = 0) :
    b.start os error =
      StartResult.childBranch (childRun b os).1 (childRun b os).2 ∧
    ((childRun b os).1.filter (fun c => c.isExec)).length = 1 ∧
    (∀ c ∈ (childRun b os).1, c.isExec = true →
      c.argvOf = some (some b.m_commandLine.getExecutableRaw ::
        (b.m_commandLine.getArgumentsRaw.map some ++ [none]))) ∧
    (∀ c ∈ (childRun b os).1, c.isExec = true → ∀ a, c.argvOf = some a →
      a.length = b.m_commandLine.getArgumentsRaw.length + 2 ∧
      a.getLast? = some none ∧
      a.head? = some (some b.m_commandLine.getExecutableRaw)) := by
  have hmem : ∀ c ∈ (childRun b os).1, c.isExec = true → c = execCallOf b os := by
    intro c hc hexec
    rw [childRun_fst_eq] at hc
    simp only [List.mem_append] at hc
    rcases hc with ((((hc | hc) | hc) | hc) | hc)
    · split at hc
      · simp at hc
      · simp only [List.mem_cons, List.not_mem_nil, or_false] at hc
        rcases hc with rfl | rfl <;> simp [SysCall.isExec] at hexec
    · simp only [List.mem_singleton] at hc
      subst hc; simp [SysCall.isExec] at hexec
    · rcases hb : b.m_current_working_directory with _ | d <;> rw [hb] at hc
      · simp at hc
      · simp only [List.mem_singleton] at hc
        subst hc; simp [SysCall.isExec] at hexec
    · simpa using hc
    · split at hc
      · simp at hc
      · simp only [List.mem_singleton] at hc
        subst hc; simp [SysCall.isExec] at hexec
  refine ⟨start_child_branch b os error h1 h2, ?_, ?_, ?_⟩
  · rw [childRun_fst_eq]
    simp only [List.filter_append]
    rcases b.m_current_working_directory with _ | d <;>
      unfold execCallOf <;>
      rcases b.m_environment with _ | env <;>
      split <;> split <;>
      simp_all [SysCall.isExec]
  · intro c hc hexec
    rw [hmem c hc hexec]
    unfold execCallOf buildArgv
    rcases b.m_environment with _ | env <;> simp [SysCall.argvOf]
  · intro c hc hexec a ha
    rw [hmem c hc hexec] at ha
    rcases henv : b.m_environment with _ | env <;>
      simp only [execCallOf, henv, buildArgv, SysCall.argvOf,
        Option.some.injEq] at ha <;>
    · subst ha
      refine ⟨by simp, ?_, by simp⟩
      rw [← List.cons_append]
      exact List.getLast?_concat _

/-- Witness for C2: on a concrete fully configured builder in the child
branch, the argv of the exec call is
`[exe, "a", "b c", null]` of length 4. -/
theorem child_argv_structure_w :
    bFull.start osChild e0 =
      StartResult.childBranch (childRun bFull osChild).1
        (childRun bFull osChild).2 ∧
    (∀ c ∈ (childRun bFull osChild).1, c.isExec = true →
      c.argvOf = some [some "/bin/echo", some "a", some "b c", none]) := by
  have h := child_argv_structure bFull osChild e0 (by decide) (by decide)
  exact ⟨h.1, fun c hc hexec => by
    have := h.2.2.1 c hc hexec
    simpa [bFull, cl0, CommandLine.getExecutableRaw,
      CommandLine.getArgumentsRaw] using this⟩

/-- C3: on the POSIX path, if and only if a non-empty redirection path
was recorded, the child opens that path with
`O_WRONLY | O_CREAT | O_TRUNC` (create-if-absent, truncate-existing)
and `dup2`s the opened descriptor onto standard output before the
exec-family call; with an empty path no open and no dup2 appear in the
trace at all. -/
theorem redirect_open_trunc_iff_nonempty_path (b : ChildProcessBuilder)
    (os : PosixOS) :
    (b.m_standardOutputFilePath ≠ "" ↔
      ∃ post, (childRun b os).1 =
        SysCall.openCall b.m_standardOutputFilePath
          (O_WRONLY ||| O_CREAT ||| O_TRUNC) 256 ::
        SysCall.dup2 os.openResult STDOUT_FILENO :: post ∧
        ∃ c ∈ post, c.isExec = true) ∧
    (b.m_standardOutputFilePath = "" →
      ∀ c ∈ (childRun b os).1, c.isOpen = false ∧ c.isDup2 = false) := by
  constructor
  · constructor
    · intro h
      refine ⟨[SysCall.realpathCall b.m_commandLine.getExecutableRaw]
          ++ (match b.m_current_working_directory with
              | some d => [SysCall.chdirCall d]
              | none => [])
          ++ [execCallOf b os]
          ++ (if os.execSucceeds then [] else [SysCall.exitCall (-1)]),
        ?_, execCallOf b os, ?_, execCall_isExec b os⟩
      · rw [childRun_fst_eq]
        simp [h]
      · simp
    · rintro ⟨post, heq, -⟩ hpath
      rw [childRun_fst_eq, if_pos hpath] at heq
      simp at heq
  · intro hpath c hc
    rw [childRun_fst_eq, if_pos hpath] at hc
    simp only [List.nil_append, List.mem_append, List.mem_singleton] at hc
    rcases hc with ((hc | hc) | hc) | hc
    · subst hc; exact ⟨rfl, rfl⟩
    · rcases hb : b.m_current_working_directory with _ | d <;> rw [hb] at hc
      · simp at hc
      · simp only [List.mem_singleton] at hc
        subst hc; exact ⟨rfl, rfl⟩
    · subst hc
      unfold execCallOf
      rcases b.m_environment with _ | env <;> exact ⟨rfl, rfl⟩
    · split at hc
      · simp at hc
      · simp only [List.mem_singleton] at hc
        subst hc; exact ⟨rfl, rfl⟩

/-- Witness for C3: the fully configured builder (non-empty redirection
path) opens `/tmp/out.txt` with `O_WRONLY|O_CREAT|O_TRUNC` and dup2s it
onto stdout before the exec, and the no-redirection builder's child
trace has no open and no dup2. -/
theorem redirect_open_trunc_iff_nonempty_path_w :
    (∃ post, (childRun bFull osChild).1 =
        SysCall.openCall "/tmp/out.txt" (O_WRONLY ||| O_CREAT ||| O_TRUNC)
          256 ::
        SysCall.dup2 3 STDOUT_FILENO :: post ∧
        ∃ c ∈ post, c.isExec = true) ∧
    (∀ c ∈ (childRun b0 osChild).1, c.isOpen = false ∧ c.isDup2 = false) :=
  ⟨(redirect_open_trunc_iff_nonempty_path bFull osChild).1.mp (by decide),
   (redirect_open_trunc_iff_nonempty_path b0 osChild).2 (by decide)⟩

/-- C4: the explicit environment is passed exactly when one was
configured: on POSIX the child's exec call is `execve` with the
serialized environment array when the builder holds an environment (and
no `execv` appears in the trace), and `execv` otherwise (no `execve` in
the trace); on Windows the environment-block pointer handed to
`CreateProcessA` is the serialized block when configured and null
otherwise. -/
theorem environment_passed_iff_configured (b : ChildProcessBuilder)
    (os : PosixOS) (wos : WindowsOS) (error : Error) :
    (∀ env, b.m_environment = some env →
      SysCall.execve os.realpathResult (buildArgv b.m_commandLine)
          env.toEnvironmentArray ∈ (childRun b os).1 ∧
      ∀ p a, SysCall.execv p a ∉ (childRun b os).1) ∧
    (b.m_environment = none →
      SysCall.execv os.realpathResult (buildArgv b.m_commandLine)
          ∈ (childRun b os).1 ∧
      ∀ p a e, SysCall.execve p a e ∉ (childRun b os).1) ∧
    (∃ c ∈ (b.startWindows wos error).trace,
      c.envOf = some (b.m_environment.map Environment.toEnvironmentBlock)) ∧
    (∀ c ∈ (b.startWindows wos error).trace, ∀ e, c.envOf = some e →
      e = b.m_environment.map Environment.toEnvironmentBlock) := by
  refine ⟨?_, ?_, ?_, ?_⟩
  · intro env henv
    constructor
    · have := execCall_mem b os
      rwa [execCallOf, henv] at this
    · intro p a hmem
      rcases mem_childRun_elim b os _ hmem with
        h | h | h | ⟨d, hd, h⟩ | h | h <;>
        simp [execCallOf, henv] at h
  · intro henv
    constructor
    · have := execCall_mem b os
      rwa [execCallOf, henv] at this
    · intro p a e hmem
      rcases mem_childRun_elim b os _ hmem with
        h | h | h | ⟨d, hd, h⟩ | h | h <;>
        simp [execCallOf, henv] at h
  · refine ⟨WinCall.createProcess b.m_commandLine.toStringQuoted
      (if b.m_standardOutputFilePath = "" then false else true)
      (b.m_environment.map Environment.toEnvironmentBlock)
      b.m_current_working_directory
      (if b.m_standardOutputFilePath = "" then {}
       else { useStdHandles := true,
              hStdOutput := some wos.createFileResult }), ?_, by
        simp [WinCall.envOf]⟩
    rw [startWindows_eq]
    by_cases hp : b.m_standardOutputFilePath = "" <;>
      cases hs : wos.createProcessSucceeds <;>
      simp [hp, hs]
  · intro c hc e he
    rw [startWindows_eq] at hc
    by_cases hp : b.m_standardOutputFilePath = "" <;>
      [rw [if_pos hp] at hc; rw [if_neg hp] at hc] <;>
      cases hs : wos.createProcessSucceeds <;> rw [hs] at hc <;>
      simp only [Bool.false_eq_true, if_false, if_true, ite_true,
        ite_false, List.mem_cons, List.not_mem_nil, or_false] at hc
    all_goals
      rcases hc with rfl | rfl | rfl | rfl
    all_goals simp_all [WinCall.envOf]

/-- Witness for C4: the fully configured builder execs via `execve`
with the serialized environment; the plain builder execs via `execv`;
on Windows the block pointer is the serialized block for the former,
null for the latter. -/
theorem environment_passed_iff_configured_w :
    SysCall.execve "/usr/bin/echo" (buildArgv cl0)
      env0.toEnvironmentArray ∈ (childRun bFull osChild).1 ∧
    SysCall.execv "/usr/bin/echo" (buildArgv cl0)
      ∈ (childRun b0 osChild).1 ∧
    (∃ c ∈ (bFull.startWindows wosOk e0).trace,
      c.envOf = some (some env0.toEnvironmentBlock)) ∧
    (∃ c ∈ (b0.startWindows wosOk e0).trace, c.envOf = some none) := by
  refine ⟨?_, ?_, ?_, ?_⟩
  · exact ((environment_passed_iff_configured bFull osChild wosOk e0).1
      env0 rfl).1
  · exact ((environment_passed_iff_configured b0 osChild wosOk e0).2.1
      rfl).1
  · exact (environment_passed_iff_configured bFull osChild wosOk e0).2.2.1
  · exact (environment_passed_iff_configured b0 osChild wosOk e0).2.2.1

/-- C5: on the POSIX path, when the exec-family call fails (returns),
the child terminates immediately via `exit(-1)` — a non-zero status —
as the last call of its trace; the child branch returns nothing through
the `Error` channel (its result carries no `Error` at all), and the
parent, whenever the fork succeeded, gets its `Error` out-parameter
back unchanged no matter what happens inside the child. -/
theorem child_exec_failure_exits_nonzero_no_error_channel
    (b : ChildProcessBuilder) (os : PosixOS) (error : Error) :
    (os.execSucceeds = false →
      (childRun b os).2 = ChildOutcome.exited (-1) ∧
      ((-1 : Int) ≠ 0) ∧
      (childRun b os).1.getLast? = some (SysCall.exitCall (-1))) ∧
    (os.executableExists = true → os.forkResult = 0 →
      b.start os error =
        StartResult.childBranch (childRun b os).1 (childRun b os).2) ∧
    (os.executableExists = true → 0 < os.forkResult →
      b.start os error =
        StartResult.parent (ChildProcess.mk os.forkResult) error) := by
  refine ⟨fun hs => ⟨?_, by decide, ?_⟩, ?_, ?_⟩
  · rw [childRun_snd_eq, if_neg (by simp [hs])]
  · rw [childRun_fst_eq, hs]
    simp only [Bool.false_eq_true, if_false]
    exact List.getLast?_concat _
  · exact fun h1 h2 => start_child_branch b os error h1 h2
  · intro h1 h2
    have hne : ¬ os.forkResult = -1 := by omega
    simp [ChildProcessBuilder.start, h1, hne, h2]

/-- Witness for C5: with the failing-exec oracle the child's outcome is
`exit(-1)` and the trace ends with `exit(-1)`; with a successful fork
(pid 9) the parent gets back `ChildProcess 9` and its untouched
error. -/
theorem child_exec_failure_exits_nonzero_no_error_channel_w :
    (childRun bFull osChildBad).2 = ChildOutcome.exited (-1) ∧
    (childRun bFull osChildBad).1.getLast? =
      some (SysCall.exitCall (-1)) ∧
    bFull.start
      { executableExists := true, forkResult := 9, openResult := -1,
        realpathResult := "/usr/bin/echo", chdirResult := -1,
        execSucceeds := false } e0 =
      StartResult.parent (ChildProcess.mk 9) e0 := by
  refine ⟨?_, ?_, ?_⟩
  · exact ((child_exec_failure_exits_nonzero_no_error_channel bFull
      osChildBad e0).1 (by decide)).1
  · exact ((child_exec_failure_exits_nonzero_no_error_channel bFull
      osChildBad e0).1 (by decide)).2.2
  · exact (child_exec_failure_exits_nonzero_no_error_channel bFull _
      e0).2.2 (by decide) (by decide)

/-- C6: when a working directory has been set, the POSIX child issues
the `chdir` after the fork and before the exec call; the `chdir` return
code is ignored — the whole behaviour of `start`, the `Error`
out-parameter included, is independent of the result the OS hands back
for `chdir` — and the child proceeds to the exec call anyway. -/
theorem chdir_in_child_failure_ignored (b : ChildProcessBuilder)
    (os : PosixOS) (error : Error) (d : String)
    (hd : b.m_current_working_directory = some d) :
    (∃ pre post, (childRun b os).1 = pre ++ SysCall.chdirCall d :: post ∧
      ∃ c ∈ post, c.isExec = true) ∧
    (∀ r, childRun b { os with chdirResult := r } = childRun b os) ∧
    (∀ r, b.start { os with chdirResult := r } error = b.start os error) ∧
    (os.executableExists = true → os.forkResult = 0 →
      b.start os error =
        StartResult.childBranch (childRun b os).1 (childRun b os).2) := by
  refine ⟨?_, fun r => rfl, fun r => rfl,
    fun h1 h2 => start_child_branch b os error h1 h2⟩
  refine ⟨(if b.m_standardOutputFilePath = "" then []
      else
        [SysCall.openCall b.m_standardOutputFilePath
           (O_WRONLY ||| O_CREAT ||| O_TRUNC) 256,
         SysCall.dup2 os.openResult STDOUT_FILENO])
      ++ [SysCall.realpathCall b.m_commandLine.getExecutableRaw],
    [execCallOf b os]
      ++ (if os.execSucceeds then [] else [SysCall.exitCall (-1)]),
    ?_, execCallOf b os, by simp, execCall_isExec b os⟩
  rw [childRun_fst_eq, hd]
  simp

/-- Witness for C6: the fully configured builder's child issues
`chdir "/tmp"` before its exec; flipping the oracle's chdir result from
`0` to `-1` changes nothing in the child run or in `start`. -/
theorem chdir_in_child_failure_ignored_w :
    (∃ pre post, (childRun bFull osChild).1 =
      pre ++ SysCall.chdirCall "/tmp" :: post ∧
      ∃ c ∈ post, c.isExec = true) ∧
    childRun bFull { osChild with chdirResult := -1 } =
      childRun bFull osChild ∧
    bFull.start { osChild with chdirResult := -1 } e0 =
      bFull.start osChild e0 :=
  ⟨(chdir_in_child_failure_ignored bFull osChild e0 "/tmp" rfl).1,
   (chdir_in_child_failure_ignored bFull osChild e0 "/tmp" rfl).2.1 (-1),
   (chdir_in_child_failure_ignored bFull osChild e0 "/tmp" rfl).2.2.1 (-1)⟩

/-- C7: on the Windows path, whenever redirection was requested the
parent's copy of the output-file handle is closed as the last call after
`CreateProcessA` returns — on success and on failure alike — and on
success the thread handle is closed (before the function returns and
wraps the process handle, whose value is `hProcess`); with redirection
and success the full ordered trace is create-file, create-process,
close-thread-handle, close-output-handle. -/
theorem windows_handle_closing (b : ChildProcessBuilder)
    (wos : WindowsOS) (error : Error) :
    (b.m_standardOutputFilePath ≠ "" →
      (b.startWindows wos error).trace.getLast? =
        some (WinCall.closeHandle wos.createFileResult)) ∧
    (wos.createProcessSucceeds = true →
      WinCall.closeHandle wos.hThread ∈ (b.startWindows wos error).trace ∧
      (b.startWindows wos error).handle = wos.hProcess) ∧
    (wos.createProcessSucceeds = true → b.m_standardOutputFilePath ≠ "" →
      (b.startWindows wos error).trace =
        [WinCall.createInheritableFile b.m_standardOutputFilePath,
         WinCall.createProcess b.m_commandLine.toStringQuoted true
           (b.m_environment.map Environment.toEnvironmentBlock)
           b.m_current_working_directory
           { useStdHandles := true,
             hStdOutput := some wos.createFileResult },
         WinCall.closeHandle wos.hThread,
         WinCall.closeHandle wos.createFileResult]) := by
  refine ⟨fun hp => ?_, fun hs => ?_, fun hs hp => ?_⟩
  · rw [startWindows_eq, if_neg hp]
    cases hs : wos.createProcessSucceeds <;> simp [hs]
  · rw [startWindows_eq]
    by_cases hp : b.m_standardOutputFilePath = "" <;> simp [hp, hs]
  · rw [startWindows_eq, if_neg hp, if_pos hs]

/-- Witness for C7: with redirection configured, the output-handle
close (handle 40) is last both when `CreateProcessA` succeeds and when
it fails, and on success the thread handle 60 is closed and the process
handle 50 is returned. -/
theorem windows_handle_closing_w :
    (bFull.startWindows wosOk e0).trace.getLast? =
      some (WinCall.closeHandle 40) ∧
    (bFull.startWindows wosFail e0).trace.getLast? =
      some (WinCall.closeHandle 40) ∧
    WinCall.closeHandle 60 ∈ (bFull.startWindows wosOk e0).trace ∧
    (bFull.startWindows wosOk e0).handle = 50 :=
  ⟨(windows_handle_closing bFull wosOk e0).1 (by decide),
   (windows_handle_closing bFull wosFail e0).1 (by decide),
   ((windows_handle_closing bFull wosOk e0).2.1 (by decide)).1,
   ((windows_handle_closing bFull wosOk e0).2.1 (by decide)).2⟩

/-- C8: on the POSIX path the child calls `realpath` on the raw
executable before the exec, and every exec-family call in the trace
receives the resolved path — never the raw string when the two differ;
on the Windows path no resolution happens: any command-line string
handed to `CreateProcessA` is exactly the builder's quoted rendering of
the command line. -/
theorem executable_canonicalized_posix_only (b : ChildProcessBuilder)
    (os : PosixOS) (wos : WindowsOS) (error : Error) :
    (∃ pre post, (childRun b os).1 =
      pre ++ SysCall.realpathCall b.m_commandLine.getExecutableRaw :: post ∧
      ∃ c ∈ post, c.isExec = true) ∧
    (∀ c ∈ (childRun b os).1, c.isExec = true →
      c.execPath = some os.realpathResult) ∧
    (os.realpathResult ≠ b.m_commandLine.getExecutableRaw →
      ∀ c ∈ (childRun b os).1, c.isExec = true →
        c.execPath ≠ some b.m_commandLine.getExecutableRaw) ∧
    (∀ c ∈ (b.startWindows wos error).trace, ∀ s, c.cmdOf = some s →
      s = b.m_commandLine.toStringQuoted) := by
  have hpath : ∀ c ∈ (childRun b os).1, c.isExec = true →
      c.execPath = some os.realpathResult := by
    intro c hc hexec
    rcases mem_childRun_elim b os c hc with
      h | h | h | ⟨d, hd, h⟩ | h | h
    · subst h; simp [SysCall.isExec] at hexec
    · subst h; simp [SysCall.isExec] at hexec
    · subst h; simp [SysCall.isExec] at hexec
    · subst h; simp [SysCall.isExec] at hexec
    · subst h
      unfold execCallOf
      rcases b.m_environment with _ | env <;> simp [SysCall.execPath]
    · subst h; simp [SysCall.isExec] at hexec
  refine ⟨?_, hpath, fun hne c hc hexec heq => ?_, ?_⟩
  · refine ⟨(if b.m_standardOutputFilePath = "" then []
        else
          [SysCall.openCall b.m_standardOutputFilePath
             (O_WRONLY ||| O_CREAT ||| O_TRUNC) 256,
           SysCall.dup2 os.openResult STDOUT_FILENO]),
      (match b.m_current_working_directory with
       | some d => [SysCall.chdirCall d]
       | none => [])
        ++ [execCallOf b os]
        ++ (if os.execSucceeds then [] else [SysCall.exitCall (-1)]),
      ?_, execCallOf b os, by simp, execCall_isExec b os⟩
    rw [childRun_fst_eq]
    simp
  · rw [hpath c hc hexec] at heq
    exact hne (by simpa using heq)
  · intro c hc s hcmd
    rw [startWindows_eq] at hc
    by_cases hp : b.m_standardOutputFilePath = "" <;>
      [rw [if_pos hp] at hc; rw [if_neg hp] at hc] <;>
      cases hs : wos.createProcessSucceeds <;> rw [hs] at hc <;>
      simp only [Bool.false_eq_true, if_false, if_true, ite_true,
        ite_false, List.mem_cons, List.not_mem_nil, or_false] at hc
    all_goals
      rcases hc with rfl | rfl | rfl | rfl
    all_goals simp_all [WinCall.cmdOf]

/-- Witness for C8: with raw executable `/bin/echo` and resolved path
`/usr/bin/echo`, the child's exec receives `/usr/bin/echo` and not
`/bin/echo`; on Windows the command string handed to `CreateProcessA`
is the quoted rendering of the command line. -/
theorem executable_canonicalized_posix_only_w :
    (SysCall.execve "/usr/bin/echo" (buildArgv cl0)
        env0.toEnvironmentArray).execPath = some "/usr/bin/echo" ∧
    (SysCall.execve "/usr/bin/echo" (buildArgv cl0)
        env0.toEnvironmentArray).execPath ≠ some "/bin/echo" ∧
    "/bin/echo a \"b c\"" = cl0.toStringQuoted := by
  refine ⟨?_, ?_, ?_⟩
  · exact (executable_canonicalized_posix_only bFull osChild wosOk
      e0).2.1 _ (by decide) (by decide)
  · exact (executable_canonicalized_posix_only bFull osChild wosOk
      e0).2.2.1 (by decide) _ (by decide) (by decide)
  · exact (executable_canonicalized_posix_only bFull osChild wosOk
      e0).2.2.2 (WinCall.createProcess cl0.toStringQuoted true
        (some env0.toEnvironmentBlock) (some "/tmp")
        { useStdHandles := true, hStdOutput := some 40 })
      (by decide) _ (by decide)

/-- C9: calling `redirectStandardOutputToFile` with the empty string is
indistinguishable from never requesting redirection: the recorded path
is the empty string (the default), and with it both platform paths
treat redirection as not requested — the POSIX child trace contains no
open and no dup2 and its standard output stays as inherited, and the
Windows trace creates no inheritable file handle and passes
`inheritHandles = FALSE` with a zeroed startup info to
`CreateProcessA`. -/
theorem empty_redirect_path_means_no_redirection
    (b : ChildProcessBuilder) (os : PosixOS) (wos : WindowsOS)
    (error : Error) :
    (b.redirectStandardOutputToFile "").m_standardOutputFilePath = "" ∧
    (b.m_standardOutputFilePath = "" →
      b.redirectStandardOutputToFile "" = b) ∧
    (∀ c ∈ (childRun (b.redirectStandardOutputToFile "") os).1,
      c.isOpen = false ∧ c.isDup2 = false) ∧
    effectiveStdout (childRun (b.redirectStandardOutputToFile "") os).1 =
      StdoutTarget.original ∧
    (∀ c ∈ ((b.redirectStandardOutputToFile "").startWindows wos
        error).trace, c.isCreateFile = false) ∧
    (∀ cmd ih envp wd si,
      WinCall.createProcess cmd ih envp wd si ∈
        ((b.redirectStandardOutputToFile "").startWindows wos
          error).trace →
      ih = false ∧ si = ({} : STARTUPINFOA)) := by
  set b' := b.redirectStandardOutputToFile "" with hb'
  have hpath : b'.m_standardOutputFilePath = "" := rfl
  refine ⟨rfl, ?_, ?_, ?_, ?_, ?_⟩
  · intro h
    rw [hb']
    unfold ChildProcessBuilder.redirectStandardOutputToFile
    rw [← h]
  · intro c hc
    rw [childRun_fst_eq, if_pos hpath] at hc
    simp only [List.nil_append, List.mem_append, List.mem_singleton] at hc
    rcases hc with ((hc | hc) | hc) | hc
    · subst hc; exact ⟨rfl, rfl⟩
    · rcases hd : b'.m_current_working_directory with _ | d <;>
        rw [hd] at hc
      · simp at hc
      · simp only [List.mem_singleton] at hc
        subst hc; exact ⟨rfl, rfl⟩
    · subst hc
      unfold execCallOf
      rcases b'.m_environment with _ | env <;> exact ⟨rfl, rfl⟩
    · split at hc
      · simp at hc
      · simp only [List.mem_singleton] at hc
        subst hc; exact ⟨rfl, rfl⟩
  · rw [effectiveStdout_childRun]
    simp [hpath]
  · intro c hc
    rw [startWindows_eq, if_pos hpath] at hc
    cases hs : wos.createProcessSucceeds <;> rw [hs] at hc <;>
      simp only [Bool.false_eq_true, if_false, if_true, ite_true,
        ite_false, List.mem_cons, List.not_mem_nil, or_false] at hc
    · subst hc; rfl
    · rcases hc with rfl | rfl <;> rfl
  · intro cmd ih envp wd si hc
    rw [startWindows_eq, if_pos hpath] at hc
    cases hs : wos.createProcessSucceeds <;> rw [hs] at hc <;>
      simp only [Bool.false_eq_true, if_false, if_true, ite_true,
        ite_false, List.mem_cons, List.not_mem_nil, or_false] at hc
    · injection hc with h1 h2 h3 h4 h5
      exact ⟨h2, h5⟩
    · rcases hc with hc | hc
      · injection hc with h1 h2 h3 h4 h5
        exact ⟨h2, h5⟩
      · exact absurd hc (by simp)

/-- Witness for C9: setting the empty redirection path on the fully
configured builder yields the empty recorded path; on the plain builder
it is the identity; the resulting child keeps its inherited standard
output and its `realpath` call is neither an open nor a dup2. -/
theorem empty_redirect_path_means_no_redirection_w :
    (bFull.redirectStandardOutputToFile "").m_standardOutputFilePath
      = "" ∧
    b0.redirectStandardOutputToFile "" = b0 ∧
    effectiveStdout
      (childRun (bFull.redirectStandardOutputToFile "") osChild).1 =
      StdoutTarget.original ∧
    ((SysCall.realpathCall "/bin/echo").isOpen = false ∧
     (SysCall.realpathCall "/bin/echo").isDup2 = false) := by
  refine ⟨?_, ?_, ?_, ?_⟩
  · exact (empty_redirect_path_means_no_redirection bFull osChild wosOk
      e0).1
  · exact (empty_redirect_path_means_no_redirection b0 osChild wosOk
      e0).2.1 (by decide)
  · exact (empty_redirect_path_means_no_redirection bFull osChild wosOk
      e0).2.2.2.1
  · exact (empty_redirect_path_means_no_redirection bFull osChild wosOk
      e0).2.2.1 (SysCall.realpathCall "/bin/echo") (by decide)

/-- C10: on the POSIX child path a failing `open` of the redirection
file is not checked: the descriptor returned by `open` — `-1`
included — is handed to `dup2` unconditionally, the child still reaches
its exec call for every possible `open` result, the child's outcome
does not depend on the `open` result, and when the `open` returned `-1`
the child runs with its original standard output instead of failing
the spawn. -/
theorem open_failure_unchecked_keeps_original_stdout
    (b : ChildProcessBuilder) (os : PosixOS)
    (hp : b.m_standardOutputFilePath ≠ "") :
    SysCall.dup2 os.openResult STDOUT_FILENO ∈ (childRun b os).1 ∧
    (∃ c ∈ (childRun b os).1, c.isExec = true) ∧
    (∀ fd, ∃ c ∈ (childRun b { os with openResult := fd }).1,
      c.isExec = true) ∧
    (∀ fd, (childRun b { os with openResult := fd }).2 =
      (childRun b os).2) ∧
    (os.openResult = -1 →
      effectiveStdout (childRun b os).1 = StdoutTarget.original) := by
  refine ⟨?_, ⟨execCallOf b os, execCall_mem b os, execCall_isExec b os⟩,
    fun fd => ⟨execCallOf b { os with openResult := fd },
      execCall_mem b _, execCall_isExec b _⟩,
    fun fd => by rw [childRun_snd_eq, childRun_snd_eq], fun ho => ?_⟩
  · rw [childRun_fst_eq, if_neg hp]
    simp
  · rw [effectiveStdout_childRun, ho]
    simp

/-- Witness for C10: with the redirection path `/tmp/out.txt` and an
oracle whose `open` returns `-1`, the child still passes `-1` to
`dup2`, still execs, and ends up with its original standard output. -/
theorem open_failure_unchecked_keeps_original_stdout_w :
    SysCall.dup2 (-1) STDOUT_FILENO ∈ (childRun bFull osChildBad).1 ∧
    (∃ c ∈ (childRun bFull osChildBad).1, c.isExec = true) ∧
    effectiveStdout (childRun bFull osChildBad).1 =
      StdoutTarget.original :=
  ⟨(open_failure_unchecked_keeps_original_stdout bFull osChildBad
      (by decide)).1,
   (open_failure_unchecked_keeps_original_stdout bFull osChildBad
      (by decide)).2.1,
   (open_failure_unchecked_keeps_original_stdout bFull osChildBad
      (by decide)).2.2.2.2 (by decide)⟩

end IshikoProcess
